import Mathlib

/-!
Shallow embedding of the bigdata-api-resources repository, covering:

* `_clean_tool_parameters` and `initiate_parallel_searches` from
  `cookbooks/financial-agent-demo/bigdata_search_agent/graph.py`;
* `get_bigdata_client`, `reset_bigdata_client`, `_parse_date_range`,
  `_format_search_results` and the per-query loop shared by the async
  search functions from
  `cookbooks/financial-agent-demo/bigdata_search_agent/utils.py`;
* the retry loops `upload_file` / `download_analytics_file` and the drivers
  `bulk_upload_files` / `bulk_download_analytics` from
  `how_to_guides/batch_file_upload.py` and
  `how_to_guides/batch_file_analytics_download.py`.

Python dynamic values are modelled by the inductive `PyVal`.  Python
`float` is modelled by `PyFloat`: finite values as exact decimals
(mantissa and power-of-ten exponent) plus `inf`/`nan` constructors; the
code under verification only converts and copies float values — it
performs no floating-point arithmetic — so an exact decimal carrier is
adequate for the finite range.  Python `dict` iteration is modelled by
association lists in insertion order; exceptions are modelled by `Except`
results; and the outcome of each external vendor call is supplied by an
explicit oracle argument.  Python string primitives (`strip`, `split`,
`in`, `lower`, `isdigit`, `int()`, `float()`) are modelled by structural
functions over the character list of the string.
-/

namespace BigdataRes

/-! ### Python string primitives -/

/-- The ASCII whitespace characters removed by Python `str.strip()`. -/
def pyIsSpace (c : Char) : Bool :=
  c = ' ' || c = '\t' || c = '\n' || c = '\r' || c = '\x0b' || c = '\x0c'

/-- Python `str.strip()`: remove whitespace from both ends. -/
def pyStrip (s : String) : String :=
  ⟨((s.data.dropWhile pyIsSpace).reverse.dropWhile pyIsSpace).reverse⟩

/-- Splitting a character list at every occurrence of a separator
character; the splitting of `""` is `[""]`, as in Python. -/
def splitCharList (sep : Char) : List Char → List (List Char)
  | [] => [[]]
  | c :: rest =>
    let r := splitCharList sep rest
    if c = sep then [] :: r
    else
      match r with
      | [] => [[c]]
      | g :: gs => (c :: g) :: gs

/-- Python `s.split(sep)` for a one-character separator. -/
def pySplit (sep : Char) (s : String) : List String :=
  (splitCharList sep s.data).map fun l => ⟨l⟩

/-- Whether `sub` occurs as a contiguous sublist of `hay`. -/
def containsSubList (sub : List Char) : List Char → Bool
  | [] => sub.isEmpty
  | c :: rest => sub.isPrefixOf (c :: rest) || containsSubList sub rest

/-- Python `sub in s` for strings (`True` iff `sub` occurs in `s`). -/
def pyContainsSub (s sub : String) : Bool :=
  containsSubList sub.data s.data

/-- Python `str.lower()` (ASCII). -/
def pyLower (s : String) : String :=
  ⟨s.data.map Char.toLower⟩

/-- Python `str.isdigit()` restricted to ASCII digits: non-empty and all
characters are digits. -/
def pyIsdigit (s : String) : Bool :=
  !s.data.isEmpty && s.data.all Char.isDigit

/-- The natural number denoted by a list of decimal digit characters. -/
def digitsVal (l : List Char) : Nat :=
  l.foldl (fun acc c => acc * 10 + (c.toNat - 48)) 0

/-- Python `int(s)` on an all-digit string. -/
def pyIntOfDigits (s : String) : Int :=
  (digitsVal s.data : Int)

/-! ### Python values -/

/-- Model of a Python `float` value: a finite value is carried as the
exact decimal `mant / 10 ^ exp10`, and the non-finite values `inf`,
`-inf` and `nan` have their own constructors.  The repository's code only
converts to and from floats and copies them — it performs no float
arithmetic — so exact decimals are adequate for the finite range;
IEEE-754 binary rounding, signed zero and overflow of astronomically
large literals to infinity are not modelled. -/
inductive PyFloat where
  | finite (mant : Int) (exp10 : Nat)
  | inf (neg : Bool)
  | nan
deriving DecidableEq, Repr

/-- Python `float(n)` on an `int`. -/
def PyFloat.ofInt (n : Int) : PyFloat := .finite n 0

/-- Python `float(b)` on a `bool` (`True` is `1.0`). -/
def PyFloat.ofBool (b : Bool) : PyFloat := .finite (if b then 1 else 0) 0

/-- Python `int(x)` on a finite float truncates toward zero.  On `inf`
and `nan` Python raises (`OverflowError` / `ValueError`); the placeholder
value `0` below is outside the scope of every theorem in this file (the
float-to-int coercion statement is made for finite floats only). -/
def PyFloat.trunc : PyFloat → Int
  | .finite m e =>
    if 0 ≤ m then (m.toNat / 10 ^ e : Nat)
    else -((-m).toNat / 10 ^ e : Nat)
  | .inf _ => 0
  | .nan => 0

/-- A possibly-empty PEP 515 digit group after an initial digit has been
consumed: digits, with every underscore standing strictly between two
digits. -/
def afterDigit : List Char → Bool
  | [] => true
  | '_' :: [] => false
  | '_' :: d :: rest => d.isDigit && afterDigit rest
  | c :: rest => c.isDigit && afterDigit rest

/-- A possibly-empty PEP 515 digit group: empty, or a digit followed by
digits with single underscores only between digits (so no leading,
trailing or doubled underscore, and none adjacent to `.` or `e`). -/
def validDigitGroup : List Char → Bool
  | [] => true
  | c :: rest => c.isDigit && afterDigit rest

/-- The digit characters of a digit group, underscores removed. -/
def groupDigits (l : List Char) : List Char :=
  l.filter fun c => c != '_'

/-- The mantissa of a Python float literal (the part before any
exponent): `digitpart ["." [digitpart]]` with at least one digit in
total.  Returns the magnitude denoted by all the digits together with the
number of fractional digits. -/
def parseMantissa (l : List Char) : Option (Nat × Nat) :=
  match splitCharList '.' l with
  | [ip] =>
    if !ip.isEmpty && validDigitGroup ip then
      some (digitsVal (groupDigits ip), 0)
    else Option.none
  | [ip, fp] =>
    if validDigitGroup ip && validDigitGroup fp
        && !(ip.isEmpty && fp.isEmpty) then
      some (digitsVal (groupDigits (ip ++ fp)), (groupDigits fp).length)
    else Option.none
  | _ => Option.none

/-- The exponent of a Python float literal: an optional sign followed by
a non-empty digit group. -/
def parseExponent (l : List Char) : Option Int :=
  let (esign, edigits) :=
    match l with
    | '-' :: r => ((-1 : Int), r)
    | '+' :: r => ((1 : Int), r)
    | _ => ((1 : Int), l)
  if !edigits.isEmpty && validDigitGroup edigits then
    some (esign * (digitsVal (groupDigits edigits) : Int))
  else Option.none

/-- The finite float denoted by a sign, a digit magnitude, a count of
fractional digits and a decimal exponent:
`± mag * 10 ^ (exp - fracLen)`, normalised into the `PyFloat.finite`
carrier. -/
def mkFiniteFloat (neg : Bool) (mag fracLen : Nat) (exp : Int) : PyFloat :=
  let m : Int := if neg then -(mag : Int) else (mag : Int)
  let net : Int := exp - (fracLen : Int)
  if 0 ≤ net then .finite (m * (10 : Int) ^ net.toNat) 0
  else .finite m (-net).toNat

/-- Python `float(s)` on ASCII strings: optional surrounding whitespace,
optional sign, then (case-insensitively) `inf` / `infinity` / `nan` or a
number `digitpart ["." [digitpart]] [("e"|"E") [sign] digitpart]` with at
least one mantissa digit, PEP 515 underscores allowed strictly between
digits; every other string raises `ValueError`, modelled as
`Option.none`. -/
def pyParseFloat (s : String) : Option PyFloat :=
  let t := (pyStrip s).data
  let (neg, body) :=
    match t with
    | '-' :: rest => (true, rest)
    | '+' :: rest => (false, rest)
    | _ => (false, t)
  let lower := body.map Char.toLower
  if lower = "inf".data || lower = "infinity".data then some (.inf neg)
  else if lower = "nan".data then some .nan
  else
    match splitCharList 'e' lower with
    | [mant] =>
      match parseMantissa mant with
      | some (mag, fracLen) => some (mkFiniteFloat neg mag fracLen 0)
      | Option.none => Option.none
    | [mant, ex] =>
      match parseMantissa mant, parseExponent ex with
      | some (mag, fracLen), some exp => some (mkFiniteFloat neg mag fracLen exp)
      | _, _ => Option.none
    | _ => Option.none

/-- Model of a Python runtime value as far as the tool parameters are
concerned: `None`, `bool`, `int`, `float`, `str`, `list`, `dict`.  In
Python `bool` is a subclass of `int`, which the embedding accounts for
branch by branch. -/
inductive PyVal where
  | none : PyVal
  | bool (b : Bool) : PyVal
  | int (n : Int) : PyVal
  | float (x : PyFloat) : PyVal
  | str (s : String) : PyVal
  | list (xs : List PyVal) : PyVal
  | dict (d : List (String × PyVal)) : PyVal
deriving Repr

/-- `True` exactly on the Python value `None`. -/
def isNoneVal : PyVal → Bool
  | .none => true
  | _ => false

/-! ### `_clean_tool_parameters` (graph.py lines 98-150) -/

/-- The list-typed parameter keys of `_clean_tool_parameters`. -/
def listParamKeys : List String :=
  ["transcript_types", "section_metadata", "filing_types", "document_types", "sources"]

/-- The numeric (int) parameter keys of `_clean_tool_parameters`. -/
def intParamKeys : List String :=
  ["fiscal_year", "fiscal_quarter", "max_results"]

/-- The float parameter keys of `_clean_tool_parameters`. -/
def floatParamKeys : List String := ["rerank_threshold"]

/-- The string parameter keys of `_clean_tool_parameters`. -/
def strParamKeys : List String := ["search_type", "date_range"]

/-- The dict parameter keys of `_clean_tool_parameters`. -/
def dictParamKeys : List String := ["filters"]

/-- The per-entry transformation performed by the loop body of
`_clean_tool_parameters` (graph.py lines 102-148): `Option.none` means the
key/value pair is skipped, `some v` means `cleaned[key] = v`.  Python
`isinstance(value, (int, float))` is true for `bool` values, hence the
`bool` cases in the numeric branches; the trailing branch keeps any basic
type, which every `PyVal` constructor other than `none` is. -/
def cleanParamValue (key : String) (value : PyVal) : Option PyVal :=
  if isNoneVal value then Option.none
  else if key ∈ listParamKeys then
    match value with
    | .bool _ => Option.none
    | .str s => some (.list [.str s])
    | .list xs => some (.list xs)
    | _ => Option.none
  else if key ∈ intParamKeys then
    match value with
    | .bool b => some (.int (if b then 1 else 0))
    | .int n => some (.int n)
    | .float x => some (.int x.trunc)
    | .str s => if pyIsdigit s then some (.int (pyIntOfDigits s)) else Option.none
    | _ => Option.none
  else if key ∈ floatParamKeys then
    match value with
    | .bool b => some (.float (PyFloat.ofBool b))
    | .int n => some (.float (PyFloat.ofInt n))
    | .float x => some (.float x)
    | .str s => (pyParseFloat s).map PyVal.float
    | _ => Option.none
  else if key ∈ strParamKeys then
    match value with
    | .str s => some (.str s)
    | _ => Option.none
  else if key ∈ dictParamKeys then
    match value with
    | .dict d => some (.dict d)
    | _ => Option.none
  else
    some value

/-- `_clean_tool_parameters(params, tool_type)` from graph.py lines 98-150:
iterates over the parameter dictionary (an association list in insertion
order) and rebuilds the cleaned dictionary.  The `tool_type` argument is
accepted but unused, exactly as in the source. -/
def clean_tool_parameters (params : List (String × PyVal)) (tool_type : String) :
    List (String × PyVal) :=
  match params with
  | [] => []
  | (k, v) :: rest =>
    match cleanParamValue k v with
    | Option.none => clean_tool_parameters rest tool_type
    | some v' => (k, v') :: clean_tool_parameters rest tool_type

/-! ### Date ranges (`_parse_date_range`, utils.py lines 189-235) -/

/-- The vendor SDK's rolling date-range enumeration (`RollingDateRange`),
with exactly the members referenced by `_parse_date_range`. -/
inductive RollingDateRange where
  | TODAY | YESTERDAY | THIS_WEEK | LAST_WEEK | LAST_SEVEN_DAYS
  | LAST_THIRTY_DAYS | LAST_NINETY_DAYS | YEAR_TO_DATE | LAST_YEAR
deriving DecidableEq, Repr

/-- Result of `_parse_date_range`: either a rolling range member or the
vendor's `AbsoluteDateRange`, modelled as the record of the two string
arguments the code passes to its constructor. -/
inductive BigdataDateRange where
  | rolling (r : RollingDateRange)
  | absolute (startExpr endExpr : String)
deriving DecidableEq, Repr

/-- The `rolling_ranges` dictionary of `_parse_date_range`, as an
association list in source order (ten keys, nine distinct values:
`last_month` and `last_30_days` both map to `LAST_THIRTY_DAYS`). -/
def rolling_ranges : List (String × RollingDateRange) :=
  [("today", .TODAY),
   ("yesterday", .YESTERDAY),
   ("this_week", .THIS_WEEK),
   ("last_week", .LAST_WEEK),
   ("last_7_days", .LAST_SEVEN_DAYS),
   ("last_month", .LAST_THIRTY_DAYS),
   ("last_30_days", .LAST_THIRTY_DAYS),
   ("last_90_days", .LAST_NINETY_DAYS),
   ("year_to_date", .YEAR_TO_DATE),
   ("last_year", .LAST_YEAR)]

/-- `_parse_date_range(date_range)` from utils.py lines 189-235.
`if not date_range` covers both `None` and the empty string; the
two-element unpacking of `date_range.split(",")` raises `ValueError` for
any other number of parts, which the source catches and turns into `None`;
all remaining inputs fall through to `return None`. -/
def parse_date_range (date_range : Option String) : Option BigdataDateRange :=
  match date_range with
  | Option.none => Option.none
  | some s =>
    if s = "" then Option.none
    else
      match rolling_ranges.lookup s with
      | some r => some (.rolling r)
      | Option.none =>
        if s.data.contains ',' then
          match pySplit ',' s with
          | [start_date, end_date] =>
              some (.absolute (pyStrip start_date ++ "T00:00:00")
                              (pyStrip end_date ++ "T23:59:59"))
          | _ => Option.none
        else Option.none

/-! ### The client singleton (`get_bigdata_client` / `reset_bigdata_client`,
utils.py lines 146-187)

The module-level `_bigdata_client` global is modelled by an explicit
`Option Client` state threaded through the functions; the client that
`Bigdata(username, password)` would construct is supplied as the `fresh`
oracle argument.  The `asyncio.Lock` serialises the critical sections, so
the state-passing model describes each (serialised) call. -/

/-- Opaque model of an authenticated vendor `Bigdata` client instance. -/
structure Client where
  id : Nat
deriving DecidableEq, Repr

/-- The process environment consulted by `get_bigdata_client`:
whether the `bigdata_client` import succeeded (`BIGDATA_AVAILABLE`), and
the `BIGDATA_USERNAME` / `BIGDATA_PASSWORD` environment variables
(`Option.none` for unset). -/
structure Env where
  bigdata_available : Bool
  username : Option String
  password : Option String
deriving DecidableEq, Repr

/-- Python truthiness of `os.environ.get(...)`: false for unset (`None`)
and for the empty string. -/
def truthyStr : Option String → Bool
  | Option.none => false
  | some s => !(s = "")

/-- What a call to `get_bigdata_client` produces: the returned client or
the raised `ValueError` message, the value of the `_bigdata_client` global
after the call, and whether `Bigdata(username, password)` was run. -/
structure GetClientResult where
  result : Except String Client
  state : Option Client
  constructed : Bool
deriving Repr

/-- `get_bigdata_client()` from utils.py lines 150-178. -/
def get_bigdata_client (env : Env) (st : Option Client) (fresh : Client) :
    GetClientResult :=
  if !env.bigdata_available then
    ⟨.error "bigdata_client not available", st, false⟩
  else
    match st with
    | some c => ⟨.ok c, some c, false⟩
    | Option.none =>
      if truthyStr env.username && truthyStr env.password then
        ⟨.ok fresh, some fresh, true⟩
      else
        ⟨.error "BIGDATA_USERNAME and BIGDATA_PASSWORD environment variables must be set",
         st, false⟩

/-- `reset_bigdata_client()` from utils.py lines 180-187: sets the global
back to `None` whatever it held. -/
def reset_bigdata_client (_st : Option Client) : Option Client :=
  Option.none

/-! ### Result formatting (`_format_search_results`, utils.py lines 237-276)

Vendor response objects are records whose optional attributes
(`hasattr`/`getattr` with a default in the source) are `Option` fields. -/

/-- The `doc.source` object (only `name` and `key` are read). -/
structure DocSource where
  name : Option String
  key : Option String
deriving DecidableEq, Repr

/-- A vendor chunk: a sub-span of a document. -/
structure Chunk where
  text : Option String
  relevance : Option PyFloat
  chunk : Option Nat
  sentiment : Option PyFloat
  entities : Option (List String)
deriving DecidableEq, Repr

/-- A vendor document with the attributes `_format_search_results` reads. -/
structure Document where
  headline : Option String
  title : Option String
  url : Option String
  id : Option String
  timestamp : Option String
  sentiment : Option PyFloat
  language : Option String
  source : Option DocSource
  chunks : List Chunk
deriving DecidableEq, Repr

/-- One formatted result dictionary (utils.py lines 251-273). -/
structure FormattedResult where
  title : String
  url : String
  content : String
  score : PyFloat
  raw_content : Option String
  chunk_index : Nat
  document_id : Option String
  document_timestamp : Option String
  document_sentiment : Option PyFloat
  language : Option String
  chunk_sentiment : Option PyFloat
  source_name : Option String
  source_key : Option String
  entities : List String
deriving DecidableEq, Repr

/-- The dictionary built for one chunk of one document. -/
def formatChunk (doc : Document) (include_raw_content : Bool) (c : Chunk) :
    FormattedResult where
  title := doc.headline.getD (doc.title.getD "Document")
  url := doc.url.getD ("bigdata://document/" ++ doc.id.getD "unknown")
  content := c.text.getD ""
  score := c.relevance.getD (.finite 0 0)
  raw_content := if include_raw_content then c.text else Option.none
  chunk_index := c.chunk.getD 0
  document_id := doc.id
  document_timestamp := doc.timestamp
  document_sentiment := doc.sentiment
  language := doc.language
  chunk_sentiment := c.sentiment
  source_name := doc.source.bind DocSource.name
  source_key := doc.source.bind DocSource.key
  entities := c.entities.getD []

/-- `_format_search_results(documents, include_raw_content)`: one result
record per chunk, documents in order, chunks in order. -/
def format_search_results (documents : List Document)
    (include_raw_content : Bool) : List FormattedResult :=
  documents.flatMap fun doc => doc.chunks.map (formatChunk doc include_raw_content)

/-! ### The per-query loop of the async search functions
(utils.py lines 311-393 for `bigdata_news_search_async`; the loops of
`bigdata_transcript_search_async`, `bigdata_filings_search_async` and
`bigdata_universal_search_async` carry a character-identical
`except Exception` handler, lines 561-570, 724-733 and 844-853). -/

/-- What the vendor search call for one query does: return documents, or
raise an exception whose `str(e)` is `msg`. -/
inductive QueryOutcome where
  | ok (docs : List Document)
  | exn (msg : String)

/-- The authentication-related substrings the handlers look for. -/
def auth_error_substrings : List String :=
  ["authentication", "unauthorized", "token", "jwt", "login"]

/-- `any(auth_error in error_str for auth_error in [...])` applied to
`str(e).lower()`. -/
def is_auth_error (msg : String) : Bool :=
  auth_error_substrings.any fun sub => pyContainsSub (pyLower msg) sub

/-- The `for query in search_queries` loop shared by the four async
document-search functions: each iteration either extends `all_results`
with the formatted documents, or is caught by the `except Exception`
handler, which resets the client singleton exactly when the message is
authentication-related, then continues with the next query.  Returns
`all_results` and the final singleton state. -/
def searchQueryLoop (include_raw_content : Bool) :
    List (String × QueryOutcome) → Option Client →
    List FormattedResult × Option Client
  | [], st => ([], st)
  | (_q, .ok docs) :: rest, st =>
    let r := searchQueryLoop include_raw_content rest st
    (format_search_results docs include_raw_content ++ r.1, r.2)
  | (_q, .exn msg) :: rest, st =>
    let st' := if is_auth_error msg then reset_bigdata_client st else st
    searchQueryLoop include_raw_content rest st'

/-- `bigdata_news_search_async` from utils.py lines 278-393: check
`BIGDATA_AVAILABLE`, obtain the shared client, then run the per-query
loop.  `queries` pairs each search query with the outcome of its vendor
call. -/
def bigdata_news_search_async (env : Env) (st : Option Client)
    (fresh : Client) (queries : List (String × QueryOutcome))
    (include_raw_content : Bool) :
    Except String (List FormattedResult) × Option Client :=
  if !env.bigdata_available then
    (.error "bigdata_client not available", st)
  else
    let g := get_bigdata_client env st fresh
    match g.result with
    | .error e => (.error e, g.state)
    | .ok _ =>
      let r := searchQueryLoop include_raw_content queries g.state
      (.ok r.1, r.2)

/-- `bigdata_transcript_search_async` (utils.py lines 395-572): same
client acquisition and per-query loop; only the vendor query construction
inside the oracle-supplied call differs. -/
def bigdata_transcript_search_async (env : Env) (st : Option Client)
    (fresh : Client) (queries : List (String × QueryOutcome))
    (include_raw_content : Bool) :
    Except String (List FormattedResult) × Option Client :=
  bigdata_news_search_async env st fresh queries include_raw_content

/-- `bigdata_filings_search_async` (utils.py lines 574-735): same shape. -/
def bigdata_filings_search_async (env : Env) (st : Option Client)
    (fresh : Client) (queries : List (String × QueryOutcome))
    (include_raw_content : Bool) :
    Except String (List FormattedResult) × Option Client :=
  bigdata_news_search_async env st fresh queries include_raw_content

/-- `bigdata_universal_search_async` (utils.py lines 737-855): same shape. -/
def bigdata_universal_search_async (env : Env) (st : Option Client)
    (fresh : Client) (queries : List (String × QueryOutcome))
    (include_raw_content : Bool) :
    Except String (List FormattedResult) × Option Client :=
  bigdata_news_search_async env st fresh queries include_raw_content

/-- Outcome of the single knowledge-graph vendor call (the items are the
already-formatted dictionaries; the claim under study concerns the
exception handler, not the per-item formatting). -/
inductive KgOutcome where
  | ok (items : List (List (String × PyVal)))
  | exn (msg : String)

/-- The `try`-body-with-handler of `bigdata_knowledge_graph_async`
(utils.py lines 884-957): on success the formatted items are returned; on
any exception the singleton is reset exactly when the message is
authentication-related and `[]` is returned. -/
def kgTryBody (st : Option Client) (outcome : KgOutcome) :
    List (List (String × PyVal)) × Option Client :=
  match outcome with
  | .ok items => (items, st)
  | .exn msg =>
    let st' := if is_auth_error msg then reset_bigdata_client st else st
    ([], st')

/-- `bigdata_knowledge_graph_async` from utils.py lines 856-957:
availability and `search_type` validation raise `ValueError`; the client
is obtained outside the `try`; the body never raises. -/
def bigdata_knowledge_graph_async (env : Env) (st : Option Client)
    (fresh : Client) (search_type : String) (outcome : KgOutcome) :
    Except String (List (List (String × PyVal))) × Option Client :=
  if !env.bigdata_available then
    (.error "bigdata_client not available", st)
  else if !(search_type = "companies" || search_type = "sources"
      || search_type = "autosuggest") then
    (.error "Invalid search_type", st)
  else
    let g := get_bigdata_client env st fresh
    match g.result with
    | .error e => (.error e, g.state)
    | .ok _ =>
      let r := kgTryBody g.state outcome
      (.ok r.1, r.2)

/-! ### `initiate_parallel_searches` (graph.py lines 843-854) -/

/-- `SearchStrategy` from state.py: one tool call description. -/
structure SearchStrategy where
  tool_type : String
  search_queries : List String
  parameters : List (String × PyVal)
  priority : Int
  description : String

/-- `SearchResult` from state.py. -/
structure SearchResult where
  strategy : SearchStrategy
  results : List (List (String × PyVal))
  metadata : List (String × PyVal)
  quality_score : Option PyFloat

/-- `BigdataSearchState` from state.py (the main graph state). -/
structure BigdataSearchState where
  topic : String
  search_depth : Int
  max_results_per_strategy : Int
  entity_preference : Option (List String)
  date_range : Option String
  search_strategies : List SearchStrategy
  completed_searches : List SearchResult
  final_results : String
  source_metadata : List (String × PyVal)

/-- `SearchStrategyState` from state.py (the payload of one `Send`). -/
structure SearchStrategyState where
  topic : String
  strategy : SearchStrategy
  entity_ids : Option (List String)
  global_date_range : Option String
  completed_searches : List SearchResult

/-- The langgraph `Send(node, arg)` object. -/
structure Send where
  node : String
  arg : SearchStrategyState

/-- `initiate_parallel_searches(state)` from graph.py lines 843-854: one
`Send` per strategy, in list order, each targeting
`execute_search_strategy`. -/
def initiate_parallel_searches (state : BigdataSearchState) : List Send :=
  state.search_strategies.map fun s =>
    { node := "execute_search_strategy"
      arg := { topic := state.topic
               strategy := s
               entity_ids := state.entity_preference
               global_date_range := state.date_range
               completed_searches := [] } }

/-! ### The batch scripts (`batch_file_upload.py`,
`batch_file_analytics_download.py`)

Each worker's vendor calls are an oracle from the attempt number to what
the call does.  A worker run records the returned value or the propagated
exception (`result`), the argument of every `time.sleep` in order
(`sleeps`), and how many vendor calls were made (`attempts`).  The
thread-pool drivers are modelled processing completed futures in
submission order; the claims proved about them do not depend on
completion order. -/

def UPLOAD_DONE : String := "UPLOAD_DONE"
def UPLOAD_ERROR : String := "UPLOAD_ERROR"
def DOWNLOAD_DONE : String := "DOWNLOAD_DONE"
def DOWNLOAD_ERROR : String := "DOWNLOAD_ERROR"

/-- `max_try` in both retry loops. -/
def max_try : Nat := 5

/-- What one `bigdata.uploads.upload_from_disk` call does:
return a file with id `fileId`, raise `BigdataClientRateLimitError`, or
raise some other exception rendered as `msg`. -/
inductive UploadOutcome where
  | success (fileId : String)
  | rateLimit
  | exn (msg : String)

/-- Trace of one worker-function run. -/
structure RetryTrace (α : Type) where
  result : Except String α
  sleeps : List Nat
  attempts : Nat
deriving Repr

/-- The `while attempt < max_try` loop of `upload_file`
(batch_file_upload.py lines 41-54), at counter value `attempt` with
`fuel = max_try - attempt` iterations left.  Only
`BigdataClientRateLimitError` is caught: it increments `attempt`, sleeps
`min(2 ** attempt, 10)` (with the incremented counter) and retries; any
other exception propagates; exhaustion returns
`(file_path, "", UPLOAD_ERROR)`. -/
def uploadLoop (oracle : Nat → UploadOutcome) (file_path : String) :
    Nat → Nat → RetryTrace (String × String × String)
  | _attempt, 0 => ⟨.ok (file_path, "", UPLOAD_ERROR), [], 0⟩
  | attempt, fuel + 1 =>
    match oracle attempt with
    | .success fid => ⟨.ok (file_path, fid, UPLOAD_DONE), [], 1⟩
    | .exn msg => ⟨.error msg, [], 1⟩
    | .rateLimit =>
      let s := min (2 ^ (attempt + 1)) 10
      let rest := uploadLoop oracle file_path (attempt + 1) fuel
      ⟨rest.result, s :: rest.sleeps, rest.attempts + 1⟩

/-- `upload_file(bigdata, file_path)` from batch_file_upload.py
lines 40-54. -/
def upload_file (oracle : Nat → UploadOutcome) (file_path : String) :
    RetryTrace (String × String × String) :=
  uploadLoop oracle file_path 0 max_try

/-- What one download attempt (`uploads.get` /
`wait_for_analysis_complete` / `download_analytics`) does: succeed, or
raise an exception rendered as `msg`. -/
inductive DownloadOutcome where
  | success
  | exn (msg : String)

/-- The `while attempt < max_try` loop of `download_analytics_file`
(batch_file_analytics_download.py lines 46-69): every exception is caught
(`except Exception`), increments `attempt`, sleeps `min(2 ** attempt, 10)`
and retries; exhaustion returns `(file_id, DOWNLOAD_ERROR)`. -/
def downloadLoop (oracle : Nat → DownloadOutcome) (file_id : String) :
    Nat → Nat → RetryTrace (String × String)
  | _attempt, 0 => ⟨.ok (file_id, DOWNLOAD_ERROR), [], 0⟩
  | attempt, fuel + 1 =>
    match oracle attempt with
    | .success => ⟨.ok (file_id, DOWNLOAD_DONE), [], 1⟩
    | .exn _ =>
      let s := min (2 ^ (attempt + 1)) 10
      let rest := downloadLoop oracle file_id (attempt + 1) fuel
      ⟨rest.result, s :: rest.sleeps, rest.attempts + 1⟩

/-- `download_analytics_file(...)` from batch_file_analytics_download.py
lines 39-69 (the file-name computation is pure string bookkeeping inside
the `try` and is absorbed into the attempt oracle). -/
def download_analytics_file (oracle : Nat → DownloadOutcome)
    (file_id : String) : RetryTrace (String × String) :=
  downloadLoop oracle file_id 0 max_try

/-- `bulk_upload_files` from batch_file_upload.py lines 57-94: one line of
the upload list per worker; for each completed future, `future.result()`
either yields `(file_path, file_id, status)` — written as the row
`[file_id, status, file_path]` — or re-raises the worker's exception,
caught by the driver's `except Exception`, which writes
`["", UPLOAD_ERROR, file_path]`; the `finally` writes exactly one row
either way. -/
def bulk_upload_files (oracleFor : String → Nat → UploadOutcome)
    (upload_lines : List String) : List (List String) :=
  upload_lines.map fun line =>
    let file_path := pyStrip line
    match (upload_file (oracleFor file_path) file_path).result with
    | .ok (p, fid, status) => [fid, status, p]
    | .error _ => ["", UPLOAD_ERROR, file_path]

/-! ## Theorems -/

/-- C10: for every input string, `_parse_date_range` is total and never
raises: it returns the matching rolling-range value for the ten recognised
rolling keywords, an absolute range only for strings containing a comma
that split into exactly two parts, and `None` for every other input —
the empty string, `None`, unrecognised keywords (no entry in
`rolling_ranges`), and comma-separated strings with more or fewer than two
parts.  Totality and exception-freedom are embodied by `parse_date_range`
being a total function into `Option`: every code path of the source
returns (the only raise, the two-element unpacking, is caught). -/
theorem parse_date_range_total (s : String) :
    parse_date_range Option.none = Option.none
  ∧ parse_date_range (some "") = Option.none
  ∧ (∀ k r, (k, r) ∈ rolling_ranges → parse_date_range (some k) = some (.rolling r))
  ∧ (∀ a b, parse_date_range (some s) = some (.absolute a b) →
      s.data.contains ',' = true ∧ (pySplit ',' s).length = 2)
  ∧ (rolling_ranges.lookup s = Option.none → (pySplit ',' s).length ≠ 2 →
      parse_date_range (some s) = Option.none) := by
  refine ⟨rfl, rfl, ?_, ?_, ?_⟩
  · intro k r h
    fin_cases h <;> rfl
  · intro a b h
    simp only [parse_date_range] at h
    by_cases hs : s = ""
    · simp [hs] at h
    · rw [if_neg hs] at h
      cases hl : rolling_ranges.lookup s with
      | some r => rw [hl] at h; simp at h
      | none =>
        rw [hl] at h
        by_cases hc : s.data.contains ',' = true
        · simp only [hc, if_true] at h
          refine ⟨hc, ?_⟩
          cases hp : pySplit ',' s with
          | nil => rw [hp] at h; simp at h
          | cons x t =>
            cases t with
            | nil => rw [hp] at h; simp at h
            | cons y u =>
              cases u with
              | nil => simp [hp]
              | cons z v => rw [hp] at h; simp at h
        · simp only [Bool.not_eq_true] at hc
          rw [hc] at h
          simp at h
  · intro hl hlen
    simp only [parse_date_range]
    by_cases hs : s = ""
    · simp [hs]
    · rw [if_neg hs, hl]
      by_cases hc : s.data.contains ',' = true
      · simp only [hc, if_true]
        cases hp : pySplit ',' s with
        | nil => rfl
        | cons x t =>
          cases t with
          | nil => rfl
          | cons y u =>
            cases u with
            | nil => exact absurd (by rw [hp]; rfl) hlen
            | cons z v => rfl
      · simp only [Bool.not_eq_true] at hc
        rw [hc]
        simp

/-- C7: the vendor client is constructed lazily and at most once between
resets: `get_bigdata_client` runs `Bigdata(username, password)` only when
the singleton is `None`; when the singleton holds a client, the call
returns that same instance and leaves the singleton unchanged; a fresh
construction installs the new instance; and `reset_bigdata_client` sets
the singleton back to `None`. -/
theorem get_bigdata_client_singleton (env : Env) (st : Option Client)
    (fresh : Client) :
    ((get_bigdata_client env st fresh).constructed = true → st = Option.none)
  ∧ (∀ c, st = some c → env.bigdata_available = true →
      get_bigdata_client env st fresh = ⟨.ok c, some c, false⟩)
  ∧ (env.bigdata_available = true → st = Option.none →
      truthyStr env.username = true → truthyStr env.password = true →
      get_bigdata_client env st fresh = ⟨.ok fresh, some fresh, true⟩)
  ∧ reset_bigdata_client st = Option.none := by
  refine ⟨?_, ?_, ?_, rfl⟩
  · intro h
    unfold get_bigdata_client at h
    by_cases ha : env.bigdata_available = true
    · rw [ha] at h
      simp only [Bool.not_true, Bool.false_eq_true, if_false] at h
      cases st with
      | some c => simp at h
      | none => rfl
    · simp only [Bool.not_eq_true] at ha
      rw [ha] at h
      simp at h
  · intro c hc ha
    subst hc
    simp [get_bigdata_client, ha]
  · intro ha hst hu hp
    subst hst
    simp [get_bigdata_client, ha, hu, hp]

/-- C3: when the per-query `except Exception` handler shared by the async
document-search functions (news, transcripts, filings, universal) catches
an exception whose lowercased message contains one of the five
authentication-related substrings, it resets the client singleton to
`None` (via `reset_bigdata_client`) before continuing with the remaining
queries, so that the next `get_bigdata_client` call constructs a fresh
client; for messages without such a substring the singleton is left
unchanged.  The knowledge-graph function's handler (`kgTryBody`) behaves
the same way. -/
theorem search_exception_resets_singleton_on_auth_error (inc : Bool)
    (st : Option Client) (q msg : String)
    (rest : List (String × QueryOutcome)) :
    searchQueryLoop inc ((q, .exn msg) :: rest) st
      = searchQueryLoop inc rest (if is_auth_error msg then Option.none else st)
  ∧ (is_auth_error msg = false →
      searchQueryLoop inc ((q, .exn msg) :: rest) st = searchQueryLoop inc rest st)
  ∧ (is_auth_error msg = true ↔
      ∃ sub ∈ auth_error_substrings, pyContainsSub (pyLower msg) sub = true)
  ∧ kgTryBody st (.exn msg)
      = ([], if is_auth_error msg then Option.none else st)
  ∧ (∀ env fresh, env.bigdata_available = true →
      truthyStr env.username = true → truthyStr env.password = true →
      (get_bigdata_client env (reset_bigdata_client st) fresh).constructed = true) := by
  refine ⟨?_, ?_, ?_, ?_, ?_⟩
  · cases h : is_auth_error msg <;>
      simp [searchQueryLoop, reset_bigdata_client, h]
  · intro h
    simp [searchQueryLoop, h]
  · simp [is_auth_error, List.any_eq_true]
  · cases h : is_auth_error msg <;>
      simp [kgTryBody, reset_bigdata_client, h]
  · intro env fresh ha hu hp
    simp [get_bigdata_client, reset_bigdata_client, ha, hu, hp]

/-- C6: for every state whose `search_strategies` list is non-empty,
`initiate_parallel_searches` returns exactly one `Send` per strategy, in
the same order as the strategies list, each targeting the
`execute_search_strategy` node and carrying that strategy together with
the state's topic, `entity_preference` (as `entity_ids`), `date_range`
(as `global_date_range`) and an empty `completed_searches` list. -/
theorem initiate_parallel_searches_one_send_per_strategy
    (state : BigdataSearchState) (_h : state.search_strategies ≠ []) :
    (initiate_parallel_searches state).length = state.search_strategies.length
  ∧ ∀ i : Nat, (initiate_parallel_searches state)[i]?
      = (state.search_strategies[i]?).map fun s =>
          Send.mk "execute_search_strategy"
            (SearchStrategyState.mk state.topic s state.entity_preference
              state.date_range []) := by
  refine ⟨by simp [initiate_parallel_searches], ?_⟩
  intro i
  simp [initiate_parallel_searches]

/-- Witness for C6 at a concrete one-strategy state. -/
theorem initiate_parallel_searches_one_send_per_strategy_witness :
    (initiate_parallel_searches
        ⟨"t", 1, 5, Option.none, Option.none,
          [⟨"news", ["q"], [], 1, "d"⟩], [], "", []⟩).length
      = ([⟨"news", ["q"], [], 1, "d"⟩] : List SearchStrategy).length
  ∧ ∀ i : Nat,
      (initiate_parallel_searches
        ⟨"t", 1, 5, Option.none, Option.none,
          [⟨"news", ["q"], [], 1, "d"⟩], [], "", []⟩)[i]?
      = (([⟨"news", ["q"], [], 1, "d"⟩] : List SearchStrategy)[i]?).map fun s =>
          Send.mk "execute_search_strategy"
            (SearchStrategyState.mk "t" s Option.none Option.none []) :=
  initiate_parallel_searches_one_send_per_strategy
    ⟨"t", 1, 5, Option.none, Option.none, [⟨"news", ["q"], [], 1, "d"⟩], [], "", []⟩
    (by simp)

/-! ### Retry-loop lemmas -/

lemma uploadLoop_attempts_le (o : Nat → UploadOutcome) (fp : String) :
    ∀ fuel attempt, (uploadLoop o fp attempt fuel).attempts ≤ fuel := by
  intro fuel
  induction fuel with
  | zero => intro attempt; simp [uploadLoop]
  | succ n ih =>
    intro attempt
    cases h : o attempt <;> simp [uploadLoop, h]
    exact ih (attempt + 1)

lemma downloadLoop_attempts_le (o : Nat → DownloadOutcome) (fid : String) :
    ∀ fuel attempt, (downloadLoop o fid attempt fuel).attempts ≤ fuel := by
  intro fuel
  induction fuel with
  | zero => intro attempt; simp [downloadLoop]
  | succ n ih =>
    intro attempt
    cases h : o attempt <;> simp [downloadLoop, h]
    exact ih (attempt + 1)

lemma uploadLoop_sleeps (o : Nat → UploadOutcome) (fp : String) :
    ∀ fuel attempt,
      (uploadLoop o fp attempt fuel).sleeps
        = (List.range (uploadLoop o fp attempt fuel).sleeps.length).map
            (fun j => min (2 ^ (attempt + j + 1)) 10) := by
  intro fuel
  induction fuel with
  | zero => intro attempt; simp [uploadLoop]
  | succ n ih =>
    intro attempt
    cases h : o attempt with
    | success fid => simp [uploadLoop, h]
    | exn msg => simp [uploadLoop, h]
    | rateLimit =>
      simp only [uploadLoop, h]
      rw [ih (attempt + 1)]
      simp only [List.length_map, List.length_range, List.length_cons,
        List.range_succ_eq_map, List.map_cons, List.map_map]
      rw [List.cons_eq_cons]
      refine ⟨rfl, ?_⟩
      apply List.map_congr_left
      intro j _
      simp only [Function.comp_apply]
      congr 2
      omega

lemma downloadLoop_sleeps (o : Nat → DownloadOutcome) (fid : String) :
    ∀ fuel attempt,
      (downloadLoop o fid attempt fuel).sleeps
        = (List.range (downloadLoop o fid attempt fuel).sleeps.length).map
            (fun j => min (2 ^ (attempt + j + 1)) 10) := by
  intro fuel
  induction fuel with
  | zero => intro attempt; simp [downloadLoop]
  | succ n ih =>
    intro attempt
    cases h : o attempt with
    | success => simp [downloadLoop, h]
    | exn msg =>
      simp only [downloadLoop, h]
      rw [ih (attempt + 1)]
      simp only [List.length_map, List.length_range, List.length_cons,
        List.range_succ_eq_map, List.map_cons, List.map_map]
      rw [List.cons_eq_cons]
      refine ⟨rfl, ?_⟩
      apply List.map_congr_left
      intro j _
      simp only [Function.comp_apply]
      congr 2
      omega

lemma uploadLoop_all_rate_limited (o : Nat → UploadOutcome) (fp : String) :
    ∀ fuel attempt,
      (∀ i, attempt ≤ i → i < attempt + fuel → o i = .rateLimit) →
      (uploadLoop o fp attempt fuel).result = .ok (fp, "", UPLOAD_ERROR) := by
  intro fuel
  induction fuel with
  | zero => intro attempt _; rfl
  | succ n ih =>
    intro attempt hall
    have h0 : o attempt = .rateLimit := hall attempt le_rfl (by omega)
    simp only [uploadLoop, h0]
    exact ih (attempt + 1) fun i h1 h2 => hall i (by omega) (by omega)

lemma downloadLoop_all_failed (o : Nat → DownloadOutcome) (fid : String) :
    ∀ fuel attempt,
      (∀ i, attempt ≤ i → i < attempt + fuel → ∃ m, o i = .exn m) →
      (downloadLoop o fid attempt fuel).result = .ok (fid, DOWNLOAD_ERROR) := by
  intro fuel
  induction fuel with
  | zero => intro attempt _; rfl
  | succ n ih =>
    intro attempt hall
    obtain ⟨m, hm⟩ := hall attempt le_rfl (by omega)
    simp only [downloadLoop, hm]
    exact ih (attempt + 1) fun i h1 h2 => hall i (by omega) (by omega)

lemma downloadLoop_never_raises (o : Nat → DownloadOutcome) (fid : String) :
    ∀ fuel attempt, ∃ t, (downloadLoop o fid attempt fuel).result = .ok t := by
  intro fuel
  induction fuel with
  | zero => intro attempt; exact ⟨_, rfl⟩
  | succ n ih =>
    intro attempt
    cases h : o attempt with
    | success => exact ⟨(fid, DOWNLOAD_DONE), by simp [downloadLoop, h]⟩
    | exn msg =>
      obtain ⟨t, ht⟩ := ih (attempt + 1)
      exact ⟨t, by simp [downloadLoop, h, ht]⟩

lemma uploadLoop_attempts_pos (o : Nat → UploadOutcome) (fp : String) :
    ∀ fuel attempt, 1 ≤ fuel → 1 ≤ (uploadLoop o fp attempt fuel).attempts := by
  intro fuel
  cases fuel with
  | zero => intro attempt h; omega
  | succ n =>
    intro attempt _
    cases h : o attempt <;> simp [uploadLoop, h]

/-- C2: in each batch script's per-unit retry loop, the vendor call is
attempted at most 5 times (`max_try = 5`); after a failed caught attempt
the loop sleeps exactly `min(2 ** attempt, 10)` seconds with the
just-incremented counter (so the j-th recorded sleep is
`min(2 ^ (j+1), 10)` and no backoff delay ever exceeds 10 seconds); and
when all attempts fail, the worker returns the tuple carrying
`UPLOAD_ERROR` resp. `DOWNLOAD_ERROR` instead of raising. -/
theorem batch_retry_loops_bounded (uo : Nat → UploadOutcome)
    (dn : Nat → DownloadOutcome) (file_path file_id : String) :
    max_try = 5
  ∧ (upload_file uo file_path).attempts ≤ max_try
  ∧ (download_analytics_file dn file_id).attempts ≤ max_try
  ∧ (upload_file uo file_path).sleeps
      = (List.range (upload_file uo file_path).sleeps.length).map
          (fun a => min (2 ^ (a + 1)) 10)
  ∧ (download_analytics_file dn file_id).sleeps
      = (List.range (download_analytics_file dn file_id).sleeps.length).map
          (fun a => min (2 ^ (a + 1)) 10)
  ∧ (∀ d ∈ (upload_file uo file_path).sleeps, d ≤ 10)
  ∧ (∀ d ∈ (download_analytics_file dn file_id).sleeps, d ≤ 10)
  ∧ ((∀ i, i < max_try → uo i = .rateLimit) →
      (upload_file uo file_path).result = .ok (file_path, "", UPLOAD_ERROR))
  ∧ ((∀ i, i < max_try → ∃ m, dn i = .exn m) →
      (download_analytics_file dn file_id).result = .ok (file_id, DOWNLOAD_ERROR)) := by
  refine ⟨rfl, uploadLoop_attempts_le uo file_path max_try 0,
    downloadLoop_attempts_le dn file_id max_try 0, ?_, ?_, ?_, ?_, ?_, ?_⟩
  · simpa using uploadLoop_sleeps uo file_path max_try 0
  · simpa using downloadLoop_sleeps dn file_id max_try 0
  · intro d hd
    unfold upload_file at hd
    rw [uploadLoop_sleeps uo file_path max_try 0] at hd
    simp only [List.mem_map] at hd
    obtain ⟨j, _, hj⟩ := hd
    exact hj ▸ min_le_right _ _
  · intro d hd
    unfold download_analytics_file at hd
    rw [downloadLoop_sleeps dn file_id max_try 0] at hd
    simp only [List.mem_map] at hd
    obtain ⟨j, _, hj⟩ := hd
    exact hj ▸ min_le_right _ _
  · intro hall
    exact uploadLoop_all_rate_limited uo file_path max_try 0
      fun i h1 h2 => hall i (by omega)
  · intro hall
    exact downloadLoop_all_failed dn file_id max_try 0
      fun i h1 h2 => hall i (by omega)

/-- C5 counterexample: in `upload_file` a non-rate-limit exception on the
first attempt is not caught and retried — it propagates out of the worker
function after a single vendor call and no backoff sleep, refuting the
claim that every exception triggers a retry in both workers. -/
theorem upload_file_propagates_counterexample :
    (upload_file (fun _ => .exn "connection error") "file.txt").result
      = Except.error "connection error"
  ∧ (upload_file (fun _ => .exn "connection error") "file.txt").attempts = 1
  ∧ (upload_file (fun _ => .exn "connection error") "file.txt").sleeps = [] :=
  ⟨rfl, rfl, rfl⟩

/-- C5 amended: only `download_analytics_file` catches exceptions broadly
— there every exception triggers a retry and the worker never raises.
`upload_file` catches only `BigdataClientRateLimitError` (retrying with a
backoff sleep); any other exception propagates out of the worker after
that one attempt. -/
theorem upload_catches_only_rate_limit (uo : Nat → UploadOutcome)
    (dn : Nat → DownloadOutcome) (file_path file_id msg : String) :
    (∃ t, (download_analytics_file dn file_id).result = Except.ok t)
  ∧ (uo 0 = .rateLimit → 2 ≤ (upload_file uo file_path).attempts)
  ∧ (uo 0 = .exn msg →
      (upload_file uo file_path).result = Except.error msg
      ∧ (upload_file uo file_path).attempts = 1
      ∧ (upload_file uo file_path).sleeps = []) := by
  refine ⟨downloadLoop_never_raises dn file_id max_try 0, ?_, ?_⟩
  · intro h0
    have hstep : (uploadLoop uo file_path 0 (4 + 1)).attempts
        = (uploadLoop uo file_path 1 4).attempts + 1 := by
      simp [uploadLoop, h0]
    have hpos := uploadLoop_attempts_pos uo file_path 4 1 (by omega)
    show 2 ≤ (uploadLoop uo file_path 0 max_try).attempts
    rw [show max_try = 4 + 1 from rfl, hstep]
    omega
  · intro h0
    refine ⟨?_, ?_, ?_⟩ <;>
      · unfold upload_file
        rw [show max_try = 4 + 1 from rfl]
        simp [uploadLoop, h0]

lemma uploadLoop_ok_shape (o : Nat → UploadOutcome) (fp : String) :
    ∀ fuel attempt a b c,
      (uploadLoop o fp attempt fuel).result = .ok (a, b, c) →
      a = fp ∧ (c = UPLOAD_DONE ∨ (c = UPLOAD_ERROR ∧ b = "")) := by
  intro fuel
  induction fuel with
  | zero =>
    intro attempt a b c h
    simp only [uploadLoop, Except.ok.injEq, Prod.mk.injEq] at h
    exact ⟨h.1.symm, Or.inr ⟨h.2.2.symm, h.2.1.symm⟩⟩
  | succ n ih =>
    intro attempt a b c h
    cases ho : o attempt with
    | success fid =>
      simp only [uploadLoop, ho, Except.ok.injEq, Prod.mk.injEq] at h
      exact ⟨h.1.symm, Or.inl h.2.2.symm⟩
    | exn msg =>
      simp only [uploadLoop, ho] at h
      exact absurd h (by simp)
    | rateLimit =>
      simp only [uploadLoop, ho] at h
      exact ih (attempt + 1) a b c h

/-- C8: `bulk_upload_files` writes exactly one result row per line of the
upload list — whether that file's upload succeeded, exhausted its retries
(the worker returns an `UPLOAD_ERROR` tuple), or raised (the driver's
`except Exception` writes the row) — recording the file id (empty string
on failure), the status (`UPLOAD_DONE` or `UPLOAD_ERROR`) and the
(stripped) file path; a failure on one file never prevents the rows for
the other files from being written. -/
theorem bulk_upload_files_one_row_per_line
    (oracleFor : String → Nat → UploadOutcome) (upload_lines : List String) :
    (bulk_upload_files oracleFor upload_lines).length = upload_lines.length
  ∧ ∀ i : Nat, i < upload_lines.length →
      ∃ fid status,
        (bulk_upload_files oracleFor upload_lines)[i]?
          = some [fid, status, pyStrip ((upload_lines[i]?).getD "")]
        ∧ (status = UPLOAD_DONE ∨ status = UPLOAD_ERROR)
        ∧ (status = UPLOAD_ERROR → fid = "") := by
  refine ⟨by simp [bulk_upload_files], ?_⟩
  intro i hi
  have hline : upload_lines[i]? = some (upload_lines.get ⟨i, hi⟩) :=
    List.getElem?_eq_getElem hi
  set line := upload_lines.get ⟨i, hi⟩ with hlinedef
  have hrow : (bulk_upload_files oracleFor upload_lines)[i]?
      = some ((fun l =>
          let file_path := pyStrip l
          match (upload_file (oracleFor file_path) file_path).result with
          | .ok (p, fid, status) => [fid, status, p]
          | .error _ => ["", UPLOAD_ERROR, file_path]) line) := by
    unfold bulk_upload_files
    rw [List.getElem?_map, hline]
    rfl
  rw [hline]
  cases hres : (upload_file (oracleFor (pyStrip line)) (pyStrip line)).result with
  | ok t =>
    obtain ⟨p, fid, status⟩ := t
    have hshape := uploadLoop_ok_shape (oracleFor (pyStrip line)) (pyStrip line)
      max_try 0 p fid status hres
    refine ⟨fid, status, ?_, ?_, ?_⟩
    · rw [hrow]
      simp only [hres, Option.getD_some]
      rw [hshape.1]
    · rcases hshape.2 with h | h
      · exact Or.inl h
      · exact Or.inr h.1
    · intro herr
      rcases hshape.2 with h | h
      · rw [h] at herr
        exact absurd herr (by decide)
      · exact h.2
  | error e =>
    refine ⟨"", UPLOAD_ERROR, ?_, Or.inr rfl, fun _ => rfl⟩
    rw [hrow]
    simp only [hres, Option.getD_some]

/-! ### The news-search loop (C4) -/

lemma searchQueryLoop_results (inc : Bool) :
    ∀ (queries : List (String × QueryOutcome)) (st : Option Client),
      (searchQueryLoop inc queries st).1
        = (queries.filterMap fun qo =>
            match qo.2 with
            | .ok docs => some (format_search_results docs inc)
            | .exn _ => Option.none).flatten := by
  intro queries
  induction queries with
  | nil => intro st; rfl
  | cons q rest ih =>
    intro st
    obtain ⟨qs, outcome⟩ := q
    cases outcome with
    | ok docs => simp [searchQueryLoop, List.filterMap_cons, ih]
    | exn msg => simp [searchQueryLoop, List.filterMap_cons, ih]

/-- C4: once the client has been obtained, `bigdata_news_search_async`
never propagates an exception raised while executing an individual query:
the failing query is skipped, iteration continues, and the function
returns the concatenation of the formatted results of exactly the
successful queries, in order. -/
theorem news_search_skips_failed_queries (env : Env) (st : Option Client)
    (fresh c : Client) (queries : List (String × QueryOutcome)) (inc : Bool)
    (h : (get_bigdata_client env st fresh).result = Except.ok c) :
    (bigdata_news_search_async env st fresh queries inc).1
      = Except.ok ((queries.filterMap fun qo =>
          match qo.2 with
          | .ok docs => some (format_search_results docs inc)
          | .exn _ => Option.none).flatten) := by
  have ha : env.bigdata_available = true := by
    by_contra hna
    simp only [Bool.not_eq_true] at hna
    unfold get_bigdata_client at h
    rw [hna] at h
    simp at h
  unfold bigdata_news_search_async
  rw [ha]
  simp only [Bool.not_true, Bool.false_eq_true, if_false]
  cases hg : (get_bigdata_client env st fresh).result with
  | error e => rw [hg] at h; simp at h
  | ok c' => simp [searchQueryLoop_results]

/-- Witness for C4: two queries, the first succeeding with no documents
and the second raising; the failing query is skipped and the result is the
(empty) accumulation from the successful query. -/
theorem news_search_skips_failed_queries_witness :
    (bigdata_news_search_async ⟨true, some "u", some "p"⟩ (some ⟨0⟩) ⟨1⟩
        [("q1", .ok []), ("q2", .exn "boom")] true).1
      = Except.ok ((([("q1", QueryOutcome.ok []), ("q2", QueryOutcome.exn "boom")].filterMap
          fun qo =>
            match qo.2 with
            | .ok docs => some (format_search_results docs true)
            | .exn _ => Option.none)).flatten) :=
  news_search_skips_failed_queries ⟨true, some "u", some "p"⟩ (some ⟨0⟩) ⟨1⟩ ⟨0⟩
    [("q1", .ok []), ("q2", .exn "boom")] true rfl

/-! ### `_clean_tool_parameters` (C1, C9) -/

/-- C1: `_clean_tool_parameters` type-coerces values before forwarding:
for the list-typed keys (`transcript_types`, `section_metadata`,
`filing_types`, `document_types`, `sources`) a string becomes a
one-element list, a list is kept as-is, and a boolean is dropped; for the
numeric keys (`fiscal_year`, `fiscal_quarter`, `max_results`) an int, a
(finite) float, or an all-digit string becomes an int; for
`rerank_threshold` a numeric value or a string parseable by Python's
`float()` (plain decimals, exponent notation, `inf`/`nan`, PEP 515
underscores) becomes a float, and an unparseable string is dropped.  The
float-to-int conjunct is stated for finite floats: on `inf`/`nan` the
source's `int(value)` raises rather than coercing. -/
theorem clean_tool_parameters_coercions (tool_type : String)
    (ps : List (String × PyVal)) (k : String) :
    (k ∈ listParamKeys →
        (∀ s, clean_tool_parameters ((k, .str s) :: ps) tool_type
            = (k, .list [.str s]) :: clean_tool_parameters ps tool_type)
      ∧ (∀ xs, clean_tool_parameters ((k, .list xs) :: ps) tool_type
            = (k, .list xs) :: clean_tool_parameters ps tool_type)
      ∧ (∀ b, clean_tool_parameters ((k, .bool b) :: ps) tool_type
            = clean_tool_parameters ps tool_type))
  ∧ (k ∈ intParamKeys →
        (∀ n : Int, clean_tool_parameters ((k, .int n) :: ps) tool_type
            = (k, .int n) :: clean_tool_parameters ps tool_type)
      ∧ (∀ (m : Int) (e : Nat),
          clean_tool_parameters ((k, .float (.finite m e)) :: ps) tool_type
            = (k, .int (PyFloat.trunc (.finite m e)))
                :: clean_tool_parameters ps tool_type)
      ∧ (∀ s, pyIsdigit s = true →
          clean_tool_parameters ((k, .str s) :: ps) tool_type
            = (k, .int (pyIntOfDigits s)) :: clean_tool_parameters ps tool_type))
  ∧ (∀ n : Int, clean_tool_parameters (("rerank_threshold", .int n) :: ps) tool_type
      = ("rerank_threshold", .float (PyFloat.ofInt n))
          :: clean_tool_parameters ps tool_type)
  ∧ (∀ x : PyFloat,
      clean_tool_parameters (("rerank_threshold", .float x) :: ps) tool_type
      = ("rerank_threshold", .float x) :: clean_tool_parameters ps tool_type)
  ∧ (∀ s x, pyParseFloat s = some x →
      clean_tool_parameters (("rerank_threshold", .str s) :: ps) tool_type
      = ("rerank_threshold", .float x) :: clean_tool_parameters ps tool_type)
  ∧ (∀ s, pyParseFloat s = Option.none →
      clean_tool_parameters (("rerank_threshold", .str s) :: ps) tool_type
      = clean_tool_parameters ps tool_type) := by
  refine ⟨?_, ?_, ?_, ?_, ?_, ?_⟩
  · intro hk
    refine ⟨fun s => ?_, fun xs => ?_, fun b => ?_⟩ <;>
      fin_cases hk <;> rfl
  · intro hk
    refine ⟨fun n => ?_, fun m e => ?_, fun s hs => ?_⟩ <;>
      fin_cases hk <;>
        simp [clean_tool_parameters, cleanParamValue, isNoneVal,
          listParamKeys, intParamKeys, *]
  · intro n
    rfl
  · intro x
    rfl
  · intro s x hs
    simp [clean_tool_parameters, cleanParamValue, isNoneVal,
      listParamKeys, intParamKeys, floatParamKeys, hs]
  · intro s hs
    simp [clean_tool_parameters, cleanParamValue, isNoneVal,
      listParamKeys, intParamKeys, floatParamKeys, hs]

lemma cleanParamValue_not_none (k : String) (v v' : PyVal)
    (h : cleanParamValue k v = some v') : isNoneVal v' = false := by
  cases v
  case none => exact absurd h (by simp [cleanParamValue, isNoneVal])
  all_goals unfold cleanParamValue at h
  all_goals repeat' split at h
  all_goals
    first
      | (rw [Option.some.injEq] at h; subst h; rfl)
      | (rw [Option.map_eq_some'] at h; obtain ⟨a, -, hv⟩ := h; subst hv; rfl)
      | exact absurd h (by simp)

/-- C9: the cleaned dictionary contains only keys present in the input,
none of its values is the Python `None`, and an input entry whose value is
`None` contributes nothing to the output. -/
theorem clean_tool_parameters_no_none (tool_type : String)
    (ps : List (String × PyVal)) :
    (∀ k v, (k, v) ∈ clean_tool_parameters ps tool_type →
        (∃ v0, (k, v0) ∈ ps) ∧ isNoneVal v = false)
  ∧ (∀ k rest, clean_tool_parameters ((k, PyVal.none) :: rest) tool_type
      = clean_tool_parameters rest tool_type) := by
  refine ⟨?_, fun k rest => rfl⟩
  induction ps with
  | nil => intro k v h; simp [clean_tool_parameters] at h
  | cons p rest ih =>
    intro k v h
    obtain ⟨k0, v0⟩ := p
    unfold clean_tool_parameters at h
    cases hcv : cleanParamValue k0 v0 with
    | none =>
      rw [hcv] at h
      obtain ⟨⟨w, hw⟩, hnn⟩ := ih k v h
      exact ⟨⟨w, List.mem_cons_of_mem _ hw⟩, hnn⟩
    | some v' =>
      rw [hcv] at h
      rcases List.mem_cons.mp h with heq | hmem
      · rw [Prod.mk.injEq] at heq
        obtain ⟨hk, hv⟩ := heq
        subst hk
        refine ⟨⟨v0, List.mem_cons_self _ _⟩, ?_⟩
        rw [hv]
        exact cleanParamValue_not_none _ _ _ hcv
      · obtain ⟨⟨w, hw⟩, hnn⟩ := ih k v hmem
        exact ⟨⟨w, List.mem_cons_of_mem _ hw⟩, hnn⟩

end BigdataRes
